import Mathlib

/-!
Verification of the casa-pipeline backend core against its specification.

Shallow embedding of:
  - `Metrics.get_health_status`            (src/backend/app/middleware/monitoring.py)
  - the Meshy vendor-status mapping and `get_model_status`
                                           (src/backend/app/api/routes.py)
  - `MeshyService.get_status`              (src/backend/app/services/meshy/meshy.py)
  - `ConnectionManager`                    (src/backend/app/websocket_manager.py)
  - `websocket_endpoint`                   (src/backend/app/main.py)
  - `BackgroundRemovalManager.process_image` and `process_batch`
                                           (src/backend/app/services/background_removal/manager.py)

Python floats are modelled as rationals; Python dicts as insertion-ordered
association lists; async execution as explicit completion orders and a
step relation for the semaphore.
-/

namespace Casa

/-! ## Metrics (monitoring.py) -/

/-- Mirrors the fields of the `Metrics` dataclass that `get_health_status`
reads.  `request_times` and per-stage counters are not read by
`get_health_status` except through the precomputed response-time fields,
which are stored on the dataclass and reproduced here. -/
structure Metrics where
  total_requests : Nat := 0
  successful_requests : Nat := 0
  failed_requests : Nat := 0
  average_response_time : ℚ := 0
  p95_response_time : ℚ := 0
  p99_response_time : ℚ := 0
  total_cost : ℚ := 0
  websocket_connections : Nat := 0
  error_counts : List (String × Nat) := []
deriving DecidableEq

/-- Python `round(x, 2)` (ties behave differently in Python, which rounds
half to even; no value in this development sits on a tie). -/
def round2 (x : ℚ) : ℚ := (round (x * 100) : ℤ) / 100

/-- Python `round(x, 3)`. -/
def round3 (x : ℚ) : ℚ := (round (x * 1000) : ℤ) / 1000

/-- The dict returned by `Metrics.get_health_status`. -/
structure HealthStatus where
  status : String
  success_rate : ℚ
  error_rate : ℚ
  total_requests : Nat
  average_response_time : ℚ
  p95_response_time : ℚ
  p99_response_time : ℚ
  total_cost : ℚ
  websocket_connections : Nat
  error_counts : List (String × Nat)
deriving DecidableEq

/-- `success_rate = (successful_requests / max(total_requests, 1)) * 100`. -/
def Metrics.success_rate_raw (m : Metrics) : ℚ :=
  ((m.successful_requests : ℚ) / ((max m.total_requests 1 : Nat) : ℚ)) * 100

/-- `error_rate = (failed_requests / max(total_requests, 1)) * 100`. -/
def Metrics.error_rate_raw (m : Metrics) : ℚ :=
  ((m.failed_requests : ℚ) / ((max m.total_requests 1 : Nat) : ℚ)) * 100

/-- `Metrics.get_health_status`, monitoring.py lines 78-94. -/
def Metrics.get_health_status (m : Metrics) : HealthStatus :=
  let success_rate := m.success_rate_raw
  let error_rate := m.error_rate_raw
  { status := if error_rate < 10 then "healthy"
              else if error_rate < 25 then "degraded"
              else "unhealthy"
    success_rate := round2 success_rate
    error_rate := round2 error_rate
    total_requests := m.total_requests
    average_response_time := round3 m.average_response_time
    p95_response_time := round3 m.p95_response_time
    p99_response_time := round3 m.p99_response_time
    total_cost := round2 m.total_cost
    websocket_connections := m.websocket_connections
    error_counts := m.error_counts }

/-! ## Vendor status mapping (routes.py, get_model_status lines 1022-1040) -/

/-- The status/progress mapping applied by `get_model_status` to the Meshy
payload: `SUCCEEDED → (completed, 100)`, `FAILED → (failed, 0)`,
`PENDING`/`IN_PROGRESS → (processing, max(progress, 10))`, anything
else `→ (processing, progress)` with the progress left as reported. -/
def map_meshy_status (meshy_status : String) (progress : Int) : String × Int :=
  if meshy_status = "SUCCEEDED" then ("completed", 100)
  else if meshy_status = "FAILED" then ("failed", 0)
  else if meshy_status = "PENDING" ∨ meshy_status = "IN_PROGRESS" then
    ("processing", max progress 10)
  else ("processing", progress)

/-! ## Meshy status source (meshy.py) and get_model_status (routes.py) -/

/-- The fields of the Meshy status payload that `get_model_status` reads.
`model_urls` and the entries of `texture_urls` are dicts, modelled as
association lists. -/
structure StatusData where
  status : Option String := none
  progress : Option Int := none
  model_urls : List (String × String) := []
  texture_urls : List (List (String × String)) := []
  thumbnail_url : Option String := none
  message : Option String := none
  errorField : Option String := none
deriving DecidableEq

/-- `d.get(k)` on a string-valued dict. -/
def lookupStr (l : List (String × String)) (k : String) : Option String :=
  (l.find? (fun p => p.1 == k)).map (fun p => p.2)

/-- Outcome of the HTTP GET that `MeshyService.get_status` performs:
a 200 with a body, a non-200 response, or a raised exception. -/
inductive HttpResult where
  | ok (body : StatusData)
  | httpError (code : Nat) (text : String)
  | exc (e : String)
deriving DecidableEq

/-- The hard-coded API key of `MeshyService.__init__`. -/
def meshy_api_key : String := "msy_dummy_api_key_for_test_mode_12345678"

/-- Python `s.startswith(pre)`, computed over the character lists. -/
def strStartsWith (s pre : String) : Bool := pre.toList.isPrefixOf s.toList

/-- The canned response for `mock_`-prefixed task ids, meshy.py lines 97-105. -/
def mock_status_data : StatusData :=
  { status := some "SUCCEEDED"
    progress := some 100
    model_urls := [("glb", "https://raw.githubusercontent.com/KhronosGroup/glTF-Sample-Models/master/2.0/Duck/glTF-Binary/Duck.glb")]
    thumbnail_url := some "https://via.placeholder.com/512x512.png?text=Mock+3D+Model" }

/-- `MeshyService.get_status`, meshy.py lines 90-145: mock ids return the
canned SUCCEEDED payload; a missing key, a non-200 response and a raised
exception each return a synthetic dict with status `FAILED`. -/
def MeshyService.get_status (task_id : String) (r : HttpResult) : StatusData :=
  if strStartsWith task_id "mock_" then mock_status_data
  else if meshy_api_key = "" then { status := some "FAILED", errorField := some "No API key" }
  else match r with
    | HttpResult.ok body => body
    | HttpResult.httpError _ text => { status := some "FAILED", errorField := some text }
    | HttpResult.exc e => { status := some "FAILED", errorField := some e }

/-- The `Model3D` row fields touched by `get_model_status`.  Timestamp
columns are modelled as set/unset flags. -/
structure Model3D where
  status : String
  model_url : Option String := none
  model_urls : List (String × String) := []
  base_texture_url : Option String := none
  thumbnail_url : Option String := none
  completed_at_set : Bool := false
  error_message : Option String := none
deriving DecidableEq

/-- The `ProcessingStage` row fields touched by `get_model_status`. -/
structure ProcessingStage where
  status : String
  completed_at_set : Bool := false
  output_model_url : Option String := none
  output_thumbnail_url : Option String := none
deriving DecidableEq

/-- The database rows relevant to one task id: the `Model3D` row with that
`meshy_task_id` (if any) and the `3d_generation` stage row of its product. -/
structure DBState where
  model : Option Model3D := none
  stage : Option ProcessingStage := none
deriving DecidableEq

/-- The `ModelStatusResponse` fields produced at routes.py lines 1095-1107. -/
structure ModelStatusResponse where
  task_id : String
  status : String
  progress : Int
  model_url : Option String := none
  model_urls : Option (List (String × String)) := none
  texture_url : Option String := none
  thumbnail_url : Option String := none
deriving DecidableEq

/-- One status check: the resulting database state, the number of terminal
`product_update` events pushed through the websocket manager, the number
of `db.commit()` calls, the number of calls made to the external status
source, and the HTTP response. -/
structure CheckOutcome where
  db : DBState
  publishes : Nat
  commits : Nat
  source_calls : Nat
  response : ModelStatusResponse
deriving DecidableEq

/-- The updated `Model3D` row written in the SUCCEEDED branch of
`get_model_status` (routes.py lines 1045-1058). -/
def completed_model (m : Model3D) (status_data : StatusData) : Model3D :=
  { m with
    status := "completed"
    model_url := lookupStr status_data.model_urls "glb"
    model_urls := status_data.model_urls
    base_texture_url :=
      match status_data.texture_urls with
      | t :: _ => some ((lookupStr t "base_color").getD "")
      | [] => m.base_texture_url
    thumbnail_url := status_data.thumbnail_url
    completed_at_set := true }

/-- The updated stage row written in the SUCCEEDED branch (routes.py
lines 1060-1071). -/
def completed_stage (st : ProcessingStage) (m2 : Model3D) : ProcessingStage :=
  { st with
    status := "completed"
    completed_at_set := true
    output_model_url := m2.model_url
    output_thumbnail_url := m2.thumbnail_url }

/-- The updated `Model3D` row written in the FAILED branch (routes.py
lines 1087-1090). -/
def failed_model (m : Model3D) (status_data : StatusData) : Model3D :=
  { m with
    status := "failed"
    error_message := some (status_data.message.getD "Generation failed") }

/-- The database writes of `get_model_status` (routes.py lines
1042-1092): side effects run only when the row exists and is not already
in the observed terminal state.  Returns the new database state, the
number of terminal `product_update` publishes and the number of
`db.commit()` calls. -/
def update_db_on_status (meshy_status : String) (status_data : StatusData) (db : DBState) :
    DBState × Nat × Nat :=
  match db.model with
  | none => (db, 0, 0)
  | some m =>
    if meshy_status = "SUCCEEDED" ∧ m.status ≠ "completed" then
      let m2 := completed_model m status_data
      (⟨some m2, db.stage.map (fun st => completed_stage st m2)⟩, 1, 1)
    else if meshy_status = "FAILED" ∧ m.status ≠ "failed" then
      (⟨some (failed_model m status_data), db.stage⟩, 0, 1)
    else (db, 0, 0)

/-- `get_model_status`, routes.py lines 1011-1107, as a function of the
status payload returned by `meshy.get_status` (which the handler calls
unconditionally, once per check — recorded in `source_calls`). -/
def get_model_status (task_id : String) (status_data : StatusData) (db : DBState) :
    CheckOutcome :=
  let meshy_status := status_data.status.getD "PENDING"
  let sp := map_meshy_status meshy_status (status_data.progress.getD 0)
  let status := sp.1
  let progress := sp.2
  let afterDB := update_db_on_status meshy_status status_data db
  let dbOut := afterDB.1
  { db := dbOut
    publishes := afterDB.2.1
    commits := afterDB.2.2
    source_calls := 1
    response :=
      { task_id := task_id
        status := status
        progress := progress
        model_url := if status = "completed" then lookupStr status_data.model_urls "glb" else none
        model_urls := if status = "completed" then some status_data.model_urls else none
        texture_url :=
          match dbOut.model with
          | some m2 => if status = "completed" then m2.base_texture_url else none
          | none => none
        thumbnail_url := if status = "completed" then status_data.thumbnail_url else none } }

/-- One full status check: query the status source, then run the handler. -/
def checkOnce (task_id : String) (r : HttpResult) (db : DBState) : CheckOutcome :=
  get_model_status task_id (MeshyService.get_status task_id r) db

/-- Repeated status checks against a fixed status-source payload: returns
the final database state and the total numbers of published terminal
events, commits and status-source calls. -/
def checkRepeat (n : Nat) (task_id : String) (status_data : StatusData) (db : DBState) :
    DBState × Nat × Nat × Nat :=
  match n with
  | 0 => (db, 0, 0, 0)
  | Nat.succ k =>
    let out := get_model_status task_id status_data db
    let rest := checkRepeat k task_id status_data out.db
    (rest.1, out.publishes + rest.2.1, out.commits + rest.2.2.1,
     out.source_calls + rest.2.2.2)

/-! ## Background removal manager (manager.py) -/

/-- The result dict of `BackgroundRemovalManager.process_image` /
`_create_skip_result`.  Keys absent from a given branch are `none`
(`skipped` defaults to false, matching a missing key). -/
structure ImageResult where
  success : Bool
  errorField : Option String := none
  original_url : String
  processed_url : Option String := none
  local_path : Option String := none
  quality_score : ℚ := 0
  transparency_level : Option ℚ := none
  provider : String
  processing_time : Option ℚ := none
  cost : Option ℚ := none
  skipped : Bool := false
deriving DecidableEq

/-- The dict returned by `provider.remove_background`. -/
structure ProviderOutcome where
  success : Bool
  errorField : Option String := none
  quality_score : ℚ := 0
  transparency_level : ℚ := 0
  processing_time : ℚ := 0
  cost : ℚ := 0
  fmt : String := "png"
deriving DecidableEq

/-- The environment one `process_image` call runs against: whether the
download returns data, what `_is_already_transparent` reports, whether a
provider is available, and what the provider would return if invoked. -/
structure UnitEnv where
  downloaded : Bool
  alreadyTransparent : Bool
  providerAvailable : Bool
  providerName : String := "rembg"
  providerOutcome : ProviderOutcome := { success := false }
deriving DecidableEq

/-- `_create_skip_result`, manager.py lines 218-243. -/
def create_skip_result (image_url product_id : String) (image_order : Nat) : ImageResult :=
  let filename := product_id ++ "_" ++ toString image_order ++ "_original.png"
  { success := true
    original_url := image_url
    processed_url := some ("/static/processed/" ++ filename)
    local_path := some ("temp/processed/" ++ filename)
    quality_score := 1
    transparency_level := some 1
    provider := "skip"
    processing_time := some 0
    cost := some 0
    skipped := true }

/-- `_save_processed_image`, manager.py lines 245-264 (URL and path only;
the actual file write is I/O). -/
def save_processed_image_paths (product_id : String) (image_order : Nat) (format_name : String) :
    String × String :=
  let filename := product_id ++ "_" ++ toString image_order ++ "_processed." ++ format_name
  ("/static/processed/" ++ filename, "temp/processed/" ++ filename)

/-- `process_image`, manager.py lines 43-134, returning the result dict
together with the number of `provider.remove_background` invocations the
call performs (0 or 1). -/
def process_image (env : UnitEnv) (image_url product_id : String) (image_order : Nat) :
    ImageResult × Nat :=
  if env.downloaded = false then
    ({ success := false, errorField := some "Failed to download image",
       original_url := image_url, provider := "none" }, 0)
  else if env.alreadyTransparent then
    (create_skip_result image_url product_id image_order, 0)
  else if env.providerAvailable = false then
    ({ success := false, errorField := some "No background removal providers available",
       original_url := image_url, provider := "none" }, 0)
  else if env.providerOutcome.success = false then
    ({ success := false,
       errorField := some (env.providerOutcome.errorField.getD "Background removal failed"),
       original_url := image_url, provider := env.providerName }, 1)
  else
    let paths := save_processed_image_paths product_id image_order env.providerOutcome.fmt
    ({ success := true
       original_url := image_url
       processed_url := some paths.1
       local_path := some paths.2
       quality_score := env.providerOutcome.quality_score
       transparency_level := some env.providerOutcome.transparency_level
       provider := env.providerName
       processing_time := some env.providerOutcome.processing_time
       cost := some env.providerOutcome.cost }, 1)

/-! ### process_batch (manager.py lines 136-193)

The execution of each unit either produces a result dict or raises, which
`asyncio.gather(..., return_exceptions=True)` captures as an exception
object in the slot of that unit.  The completion order of the concurrently
running units is an arbitrary permutation of the indices; `gather`
stores the outcome of each task in the slot of its submission index. -/

/-- The failure dict built at manager.py lines 178-185 for a unit whose
task raised. -/
def exception_result (url e : String) : ImageResult :=
  { success := false, errorField := some e, original_url := url, provider := "none" }

/-- Post-gather handling of one slot: a raised exception becomes a failed
result dict at the same index, a returned dict is kept as is. -/
def handleOutcome (url : String) : Except String ImageResult → ImageResult
  | Except.ok r => r
  | Except.error e => exception_result url e

/-- `asyncio.gather` semantics: slots indexed by submission order start
empty and are filled in completion order `σ`; task `i` always writes its
own outcome into slot `i`. -/
def gatherRun (outcomes : List (Except String ImageResult)) (σ : List Nat) :
    List (Option (Except String ImageResult)) :=
  σ.foldl (fun slots i => slots.set i outcomes[i]?)
    (List.replicate outcomes.length none)

/-- `process_batch`: gather all units (in completion order `σ`), then map
exceptions to failure dicts positionally.  Returns `none` only if some
slot was never completed, which cannot happen for a complete execution. -/
def process_batch (image_urls : List String) (outcomes : List (Except String ImageResult))
    (σ : List Nat) : Option (List ImageResult) :=
  let gathered := gatherRun outcomes σ
  if gathered.all Option.isSome then
    some (((gathered.filterMap id).zip image_urls).map fun p => handleOutcome p.2 p.1)
  else none

/-! ### The concurrency ceiling of process_batch

`process_batch` wraps each unit as `async with semaphore: ...` with
`semaphore = asyncio.Semaphore(max_concurrent)` (manager.py lines
155-163): a unit acquires a permit before doing any work (download,
transparency check, provider call) and releases it when `process_image`
returns.  Modelled as a transition system: each unit is waiting, holding
a permit (running), or done. -/

inductive UnitPhase where
  | waiting
  | running
  | done
deriving DecidableEq

/-- Semaphore + unit phases. `permits` is the internal
counter; `phases` has one entry per unit, in submission order. -/
structure SemState where
  permits : Nat
  phases : List UnitPhase
deriving DecidableEq

/-- Is this unit currently holding a permit (so possibly inside a
Provider call)? -/
def UnitPhase.isRunning : UnitPhase → Bool
  | UnitPhase.running => true
  | _ => false

/-- Number of units currently admitted by the semaphore; every in-flight
Provider invocation belongs to such a unit. -/
def SemState.inflight (s : SemState) : Nat := s.phases.countP UnitPhase.isRunning

/-- `asyncio.Semaphore` semantics for the batch: `acquire` admits a
waiting unit only while the counter is positive and decrements it;
leaving the `async with` block increments the counter again. -/
inductive SemStep : SemState → SemState → Prop
  | acquire (s : SemState) (i : Nat)
      (hp : s.phases.get? i = some UnitPhase.waiting) (hk : 0 < s.permits) :
      SemStep s ⟨s.permits - 1, s.phases.set i UnitPhase.running⟩
  | release (s : SemState) (i : Nat)
      (hp : s.phases.get? i = some UnitPhase.running) :
      SemStep s ⟨s.permits + 1, s.phases.set i UnitPhase.done⟩

/-- States reachable during a batch of `n` units under
`Semaphore(k)`: initially all units wait and `k` permits are free. -/
inductive SemReachable (k n : Nat) : SemState → Prop
  | init : SemReachable k n ⟨k, List.replicate n UnitPhase.waiting⟩
  | step {s t : SemState} : SemReachable k n s → SemStep s t → SemReachable k n t

/-! ## Websocket broadcaster (websocket_manager.py) -/

/-- Connections are opaque handles. -/
abbrev Conn := Nat

/-- `ConnectionManager` state: the list of accepted connections and the
subscription dict keyed by product/batch id.  Python dicts and lists are
insertion-ordered, modelled by association lists. -/
structure ConnectionManager where
  active_connections : List Conn := []
  subscriptions : List (String × List Conn) := []
deriving DecidableEq

/-- Python `list.remove`: drop the first occurrence. -/
def removeFirst : List Conn → Conn → List Conn
  | [], _ => []
  | x :: xs, a => if x = a then xs else x :: removeFirst xs a

/-- `ConnectionManager.connect` (the `accept` is I/O). -/
def ConnectionManager.connect (m : ConnectionManager) (ws : Conn) : ConnectionManager :=
  { m with active_connections := m.active_connections ++ [ws] }

/-- One subscription entry after a connection disconnects: untouched if
the connection is not in it, dropped if removing the connection empties
it, shrunk otherwise (the body of the loop at websocket_manager.py
lines 27-31). -/
def dcEntry (ws : Conn) (p : String × List Conn) : Option (String × List Conn) :=
  if ws ∈ p.2 then
    if removeFirst p.2 ws = [] then none else some (p.1, removeFirst p.2 ws)
  else some p

/-- `ConnectionManager.disconnect`, websocket_manager.py lines 23-32:
remove the connection from `active_connections` and from every
subscription list, deleting a key whose list it leaves empty. -/
def ConnectionManager.disconnect (m : ConnectionManager) (ws : Conn) : ConnectionManager :=
  { active_connections :=
      if ws ∈ m.active_connections then removeFirst m.active_connections ws
      else m.active_connections
    subscriptions := m.subscriptions.filterMap (dcEntry ws) }

/-- `subscribe_to_product` / `subscribe_to_batch` share this body
(websocket_manager.py lines 52-66): create the key if absent, then append
the connection unless already present. -/
def ConnectionManager.subscribe (m : ConnectionManager) (id : String) (ws : Conn) :
    ConnectionManager :=
  { m with subscriptions :=
      if m.subscriptions.any (fun p => p.1 == id) then
        m.subscriptions.map fun p =>
          if p.1 == id then (if ws ∈ p.2 then p else (p.1, p.2 ++ [ws])) else p
      else m.subscriptions ++ [(id, [ws])] }

/-- `send_personal_message`: a failed write disconnects the connection. -/
def ConnectionManager.send_personal_message (m : ConnectionManager) (ws : Conn)
    (fails : Conn → Bool) : ConnectionManager :=
  if fails ws then m.disconnect ws else m

/-- `self.subscriptions[id]` when the key is present, `[]` otherwise. -/
def subsLookup (subs : List (String × List Conn)) (id : String) : List Conn :=
  match subs.find? (fun p => p.1 == id) with
  | some p => p.2
  | none => []

/-- The subscribers the next publish to `id` would attempt to write to. -/
def ConnectionManager.subscribersOf (m : ConnectionManager) (id : String) : List Conn :=
  subsLookup m.subscriptions id

/-- The shared body of `send_product_update`, `send_batch_update` and
`send_error_update` (websocket_manager.py lines 68-130): if the key is
present, attempt a write to every subscriber in list order (a failure
does not stop the loop), collect the failed connections, then disconnect
each of them.  Returns the new state and the list of attempted write
targets; with no subscribers (key absent) the publish is a silent
no-op, the fold over the empty failure list. -/
def ConnectionManager.fanout (m : ConnectionManager) (id : String) (fails : Conn → Bool) :
    ConnectionManager × List Conn :=
  let subs := m.subscribersOf id
  ((subs.filter fails).foldl (fun st w => st.disconnect w) m, subs)

/-- `send_product_update`, websocket_manager.py lines 68-87. -/
def ConnectionManager.send_product_update (m : ConnectionManager) (product_id : String)
    (fails : Conn → Bool) : ConnectionManager × List Conn :=
  m.fanout product_id fails

/-- `send_batch_update`, websocket_manager.py lines 89-108. -/
def ConnectionManager.send_batch_update (m : ConnectionManager) (batch_id : String)
    (fails : Conn → Bool) : ConnectionManager × List Conn :=
  m.fanout batch_id fails

/-- `send_error_update`, websocket_manager.py lines 110-130. -/
def ConnectionManager.send_error_update (m : ConnectionManager) (product_id : String)
    (fails : Conn → Bool) : ConnectionManager × List Conn :=
  m.fanout product_id fails

/-- `broadcast`, websocket_manager.py lines 40-50: write to every active
connection, then disconnect the failed ones. -/
def ConnectionManager.broadcast (m : ConnectionManager) (fails : Conn → Bool) :
    ConnectionManager :=
  (m.active_connections.filter fails).foldl (fun st w => st.disconnect w) m

/-- The public operations of the broadcaster, for stating invariants that hold
after every operation. -/
inductive BOp where
  | connectOp (ws : Conn)
  | disconnectOp (ws : Conn)
  | subscribeProductOp (ws : Conn) (id : String)
  | subscribeBatchOp (ws : Conn) (id : String)
  | sendProductOp (id : String) (fails : Conn → Bool)
  | sendBatchOp (id : String) (fails : Conn → Bool)
  | sendErrorOp (id : String) (fails : Conn → Bool)
  | sendPersonalOp (ws : Conn) (fails : Conn → Bool)
  | broadcastOp (fails : Conn → Bool)

/-- Apply one broadcaster operation to the state. -/
def BOp.apply : BOp → ConnectionManager → ConnectionManager
  | BOp.connectOp ws, m => m.connect ws
  | BOp.disconnectOp ws, m => m.disconnect ws
  | BOp.subscribeProductOp ws id, m => m.subscribe id ws
  | BOp.subscribeBatchOp ws id, m => m.subscribe id ws
  | BOp.sendProductOp id fails, m => (m.send_product_update id fails).1
  | BOp.sendBatchOp id fails, m => (m.send_batch_update id fails).1
  | BOp.sendErrorOp id fails, m => (m.send_error_update id fails).1
  | BOp.sendPersonalOp ws fails, m => m.send_personal_message ws fails
  | BOp.broadcastOp fails, m => m.broadcast fails

/-- No subscription key maps to an empty connection list. -/
def NoEmptySubs (m : ConnectionManager) : Prop :=
  ∀ p ∈ m.subscriptions, p.2 ≠ []

/-! ## Websocket endpoint (main.py lines 143-196) -/

/-- One inbound text frame: either not valid JSON, or a JSON object with
the three fields the handler reads (`None` when a key is absent). -/
inductive Frame where
  | malformed (raw : String)
  | jsonMsg (msgType : Option String) (product_id : Option String) (batch_id : Option String)
deriving DecidableEq

/-- Python truthiness of `message.get(k)` for a string field: absent and
empty-string values are falsy. -/
def truthyStr : Option String → Bool
  | none => false
  | some s => !(s == "")

/-- One iteration of the `websocket_endpoint` receive loop for a frame
from connection `ws`: returns the new manager state and the `type` fields
of the replies sent back on the same connection.  `subscribe_product` /
`subscribe_batch` with a truthy id subscribe and confirm; `ping` answers
`pong`; any other JSON object is echoed back with type `echo`; a frame
that fails `json.loads` is answered with type `error`. -/
def websocket_endpoint_step (m : ConnectionManager) (ws : Conn) (f : Frame)
    (fails : Conn → Bool) : ConnectionManager × List String :=
  match f with
  | Frame.malformed _ => (m.send_personal_message ws fails, ["error"])
  | Frame.jsonMsg msgType pid bid =>
    if msgType == some "subscribe_product" then
      if truthyStr pid then
        ((m.subscribe (pid.getD "") ws).send_personal_message ws fails,
         ["subscription_confirmed"])
      else (m, [])
    else if msgType == some "subscribe_batch" then
      if truthyStr bid then
        ((m.subscribe (bid.getD "") ws).send_personal_message ws fails,
         ["subscription_confirmed"])
      else (m, [])
    else if msgType == some "ping" then
      (m.send_personal_message ws fails, ["pong"])
    else
      (m.send_personal_message ws fails, ["echo"])

/-! # Theorems -/

/-- The status field of `get_health_status`, exposed as a three-tier
conditional on the raw error rate. -/
theorem health_status_eq (m : Metrics) :
    (m.get_health_status).status =
      if m.error_rate_raw < 10 then "healthy"
      else if m.error_rate_raw < 25 then "degraded"
      else "unhealthy" := rfl

/-- The reported error rate is the raw rate rounded to two decimals. -/
theorem health_error_rate_eq (m : Metrics) :
    (m.get_health_status).error_rate = round2 m.error_rate_raw := rfl

/-- The reported success rate is the raw rate rounded to two decimals. -/
theorem health_success_rate_eq (m : Metrics) :
    (m.get_health_status).success_rate = round2 m.success_rate_raw := rfl

/-- C8: the derived health verdict is a pure function of the error rate
with a three-tier threshold shape — error rates below 10% give
`healthy`, rates in [10%, 25%) give `degraded`, rates of 25% and above
give `unhealthy`; in particular error rates of 5%, 15% and 30% yield
`healthy`, `degraded` and `unhealthy` respectively. -/
theorem C8_health_thresholds :
    (∀ m : Metrics,
      ((m.get_health_status).status = "healthy" ↔ m.error_rate_raw < 10) ∧
      ((m.get_health_status).status = "degraded" ↔
        (10 ≤ m.error_rate_raw ∧ m.error_rate_raw < 25)) ∧
      ((m.get_health_status).status = "unhealthy" ↔ 25 ≤ m.error_rate_raw)) ∧
    (({ total_requests := 20, successful_requests := 19, failed_requests := 1 } :
        Metrics).error_rate_raw = 5 ∧
      (Metrics.get_health_status
        { total_requests := 20, successful_requests := 19, failed_requests := 1 }).status
        = "healthy") ∧
    (({ total_requests := 20, successful_requests := 17, failed_requests := 3 } :
        Metrics).error_rate_raw = 15 ∧
      (Metrics.get_health_status
        { total_requests := 20, successful_requests := 17, failed_requests := 3 }).status
        = "degraded") ∧
    (({ total_requests := 20, successful_requests := 14, failed_requests := 6 } :
        Metrics).error_rate_raw = 30 ∧
      (Metrics.get_health_status
        { total_requests := 20, successful_requests := 14, failed_requests := 6 }).status
        = "unhealthy") := by
  have h5 : ({ total_requests := 20, successful_requests := 19, failed_requests := 1 } :
      Metrics).error_rate_raw = 5 := by norm_num [Metrics.error_rate_raw]
  have h15 : ({ total_requests := 20, successful_requests := 17, failed_requests := 3 } :
      Metrics).error_rate_raw = 15 := by norm_num [Metrics.error_rate_raw]
  have h30 : ({ total_requests := 20, successful_requests := 14, failed_requests := 6 } :
      Metrics).error_rate_raw = 30 := by norm_num [Metrics.error_rate_raw]
  refine ⟨fun m => ?_,
    ⟨h5, by rw [health_status_eq, h5]; norm_num⟩,
    ⟨h15, by rw [health_status_eq, h15]; norm_num⟩,
    ⟨h30, by rw [health_status_eq, h30]; norm_num⟩⟩
  rw [health_status_eq]
  by_cases h1 : m.error_rate_raw < 10
  · refine ⟨by simp [h1], ?_, ?_⟩
    · rw [if_pos h1]
      constructor
      · intro h; exact absurd h (by decide)
      · intro h; exact absurd h1 (not_lt.mpr h.1)
    · rw [if_pos h1]
      constructor
      · intro h; exact absurd h (by decide)
      · intro h; exact absurd h1 (not_lt.mpr (le_trans (by norm_num) h))
  · by_cases h2 : m.error_rate_raw < 25
    · rw [if_neg h1, if_pos h2]
      refine ⟨?_, ?_, ?_⟩
      · constructor
        · intro h; exact absurd h (by decide)
        · intro h; exact absurd h h1
      · simp [not_lt.mp h1, h2]
      · constructor
        · intro h; exact absurd h (by decide)
        · intro h; exact absurd h2 (not_lt.mpr h)
    · rw [if_neg h1, if_neg h2]
      refine ⟨?_, ?_, ?_⟩
      · constructor
        · intro h; exact absurd h (by decide)
        · intro h; exact absurd h h1
      · constructor
        · intro h; exact absurd h (by decide)
        · intro h; exact absurd h.2 h2
      · simp [not_lt.mp h2]

/-- C10: `get_health_status` is total when no requests have been
recorded — with zero totals the guarded denominator `max(total, 1)` is
1, the raw and reported error and success rates are 0 and the status is
`healthy`. -/
theorem C10_health_total_zero (m : Metrics)
    (h0 : m.total_requests = 0) (hf : m.failed_requests = 0)
    (hs : m.successful_requests = 0) :
    (m.get_health_status).status = "healthy" ∧
    (m.get_health_status).error_rate = 0 ∧
    (m.get_health_status).success_rate = 0 ∧
    m.error_rate_raw = 0 ∧ (max m.total_requests 1 : Nat) = 1 := by
  have he : m.error_rate_raw = 0 := by simp [Metrics.error_rate_raw, hf]
  have hsr : m.success_rate_raw = 0 := by simp [Metrics.success_rate_raw, hs]
  refine ⟨?_, ?_, ?_, he, by simp [h0]⟩
  · rw [health_status_eq, he]; norm_num
  · rw [health_error_rate_eq, he]; simp [round2]
  · rw [health_success_rate_eq, hsr]; simp [round2]

/-- C10 witness: the freshly-initialized metrics object reports status
`healthy` with error rate 0. -/
theorem C10_health_total_zero_witness :
    (({} : Metrics).get_health_status).status = "healthy" ∧
    (({} : Metrics).get_health_status).error_rate = 0 ∧
    (({} : Metrics).get_health_status).success_rate = 0 ∧
    ({} : Metrics).error_rate_raw = 0 ∧ (max ({} : Metrics).total_requests 1 : Nat) = 1 :=
  C10_health_total_zero {} rfl rfl rfl

/-- C7 counterexample: the claim says an unknown vendor status maps to
the running state with a floor-clamped progress value, but for the
unknown status `CANCELED` with reported progress 0 the code returns
progress 0 — below the floor of 10 that the known in-progress statuses
receive — so the progress is not floor-clamped. -/
theorem C7_counterexample :
    (map_meshy_status "CANCELED" 0).1 = "processing" ∧
    (map_meshy_status "CANCELED" 0).2 = 0 ∧
    ¬ (10 ≤ (map_meshy_status "CANCELED" 0).2) ∧
    (map_meshy_status "PENDING" 0).2 = 10 := by
  refine ⟨rfl, rfl, ?_, rfl⟩
  intro h
  exact absurd h (by decide)

/-- C7 (amended): `get_model_status` maps the vendor status by a fixed
lookup — `SUCCEEDED → (completed, 100)`, `FAILED → (failed, 0)`,
`PENDING`/`IN_PROGRESS → (processing, max(progress, 10))` — and every
unknown vendor status maps to the running state `processing` with the
vendor-reported progress passed through unclamped (never silently
dropped); only the two known in-progress statuses receive the floor
clamp. -/
theorem C7_amended (s : String) (p : Int)
    (h1 : s ≠ "SUCCEEDED") (h2 : s ≠ "FAILED")
    (h3 : s ≠ "PENDING") (h4 : s ≠ "IN_PROGRESS") :
    map_meshy_status s p = ("processing", p) ∧
    map_meshy_status "SUCCEEDED" p = ("completed", 100) ∧
    map_meshy_status "FAILED" p = ("failed", 0) ∧
    map_meshy_status "PENDING" p = ("processing", max p 10) ∧
    map_meshy_status "IN_PROGRESS" p = ("processing", max p 10) := by
  have h34 : ¬ (s = "PENDING" ∨ s = "IN_PROGRESS") := by
    rintro (h | h)
    · exact h3 h
    · exact h4 h
  refine ⟨?_, ?_, ?_, ?_, ?_⟩
  · unfold map_meshy_status
    rw [if_neg h1, if_neg h2, if_neg h34]
  · unfold map_meshy_status
    rw [if_pos rfl]
  · unfold map_meshy_status
    rw [if_neg (by decide), if_pos rfl]
  · unfold map_meshy_status
    rw [if_neg (by decide), if_neg (by decide), if_pos (Or.inl rfl)]
  · unfold map_meshy_status
    rw [if_neg (by decide), if_neg (by decide), if_pos (Or.inr rfl)]

/-- C7 witness: the amended mapping evaluated at the unknown status
`CANCELED` with progress 7. -/
theorem C7_amended_witness :
    map_meshy_status "CANCELED" 7 = ("processing", 7) ∧
    map_meshy_status "SUCCEEDED" 7 = ("completed", 100) ∧
    map_meshy_status "FAILED" 7 = ("failed", 0) ∧
    map_meshy_status "PENDING" 7 = ("processing", max 7 10) ∧
    map_meshy_status "IN_PROGRESS" 7 = ("processing", max 7 10) :=
  C7_amended "CANCELED" 7 (by decide) (by decide) (by decide) (by decide)

/-! ### Helper lemmas about get_model_status -/

theorem gms_db (tid : String) (sd : StatusData) (db : DBState) :
    (get_model_status tid sd db).db =
      (update_db_on_status (sd.status.getD "PENDING") sd db).1 := rfl

theorem gms_publishes (tid : String) (sd : StatusData) (db : DBState) :
    (get_model_status tid sd db).publishes =
      (update_db_on_status (sd.status.getD "PENDING") sd db).2.1 := rfl

theorem gms_commits (tid : String) (sd : StatusData) (db : DBState) :
    (get_model_status tid sd db).commits =
      (update_db_on_status (sd.status.getD "PENDING") sd db).2.2 := rfl

theorem gms_source_calls (tid : String) (sd : StatusData) (db : DBState) :
    (get_model_status tid sd db).source_calls = 1 := rfl

theorem gms_response_status (tid : String) (sd : StatusData) (db : DBState) :
    (get_model_status tid sd db).response.status =
      (map_meshy_status (sd.status.getD "PENDING") (sd.progress.getD 0)).1 := rfl

theorem gms_response_progress (tid : String) (sd : StatusData) (db : DBState) :
    (get_model_status tid sd db).response.progress =
      (map_meshy_status (sd.status.getD "PENDING") (sd.progress.getD 0)).2 := rfl

theorem map_meshy_failed (p : Int) : map_meshy_status "FAILED" p = ("failed", 0) := by
  unfold map_meshy_status
  rw [if_neg (by decide), if_pos rfl]

theorem update_db_succ_first (sd : StatusData) (db : DBState) (m : Model3D)
    (hm : db.model = some m) (h : m.status ≠ "completed") :
    update_db_on_status "SUCCEEDED" sd db =
      (⟨some (completed_model m sd),
        db.stage.map (fun st => completed_stage st (completed_model m sd))⟩, 1, 1) := by
  unfold update_db_on_status
  rw [hm]
  simp [h]

theorem update_db_succ_terminal (sd : StatusData) (db : DBState) (m : Model3D)
    (hm : db.model = some m) (h : m.status = "completed") :
    update_db_on_status "SUCCEEDED" sd db = (db, 0, 0) := by
  unfold update_db_on_status
  rw [hm]
  simp [h]

theorem update_db_failed_first (sd : StatusData) (db : DBState) (m : Model3D)
    (hm : db.model = some m) (h : m.status ≠ "failed") :
    update_db_on_status "FAILED" sd db = (⟨some (failed_model m sd), db.stage⟩, 0, 1) := by
  unfold update_db_on_status
  rw [hm]
  simp [h]

theorem completed_model_status (m : Model3D) (sd : StatusData) :
    (completed_model m sd).status = "completed" := rfl

/-- `checkRepeat` unfolding for a positive count. -/
theorem checkRepeat_succ (n : Nat) (tid : String) (sd : StatusData) (db : DBState) :
    checkRepeat (n + 1) tid sd db =
      ((checkRepeat n tid sd (get_model_status tid sd db).db).1,
       (get_model_status tid sd db).publishes +
         (checkRepeat n tid sd (get_model_status tid sd db).db).2.1,
       (get_model_status tid sd db).commits +
         (checkRepeat n tid sd (get_model_status tid sd db).db).2.2.1,
       (get_model_status tid sd db).source_calls +
         (checkRepeat n tid sd (get_model_status tid sd db).db).2.2.2) := rfl

/-- Once a check leaves the database unchanged with no side effects,
repeating it any number of times stays side-effect free (each repetition
still calling the status source once). -/
theorem checkRepeat_of_fixed (tid : String) (sd : StatusData) (db2 : DBState)
    (hdb : (get_model_status tid sd db2).db = db2)
    (hp : (get_model_status tid sd db2).publishes = 0)
    (hc : (get_model_status tid sd db2).commits = 0) (n : Nat) :
    checkRepeat n tid sd db2 = (db2, 0, 0, n) := by
  induction n with
  | zero => rfl
  | succ k ih =>
    rw [checkRepeat_succ, hdb, hp, hc, ih, gms_source_calls]
    simp [Nat.add_comm]

/-- The FAILED branch is also a no-op once the record is already failed
(routes.py line 1087 guards on `model_3d.status != "failed"`). -/
theorem update_db_failed_terminal (sd : StatusData) (db : DBState) (m : Model3D)
    (hm : db.model = some m) (h : m.status = "failed") :
    update_db_on_status "FAILED" sd db = (db, 0, 0) := by
  unfold update_db_on_status
  rw [hm]
  simp [h]

/-- C3 counterexample: two failures of the claim as stated.  First, a
check of an already-terminal task (stored record `completed`, vendor
still reporting SUCCEEDED) performs no side effects and returns the
cached record, yet still invokes the external status source
(`meshy.get_status` runs unconditionally at the top of the handler),
which the claim forbids for subsequent checks.  Second, the first check
that observes the terminal vendor state FAILED on a not-yet-failed
record persists the terminal payload and commits but publishes no
terminal event to subscribers, so the completion side effects do not
all fire at the first check that observes a terminal state. -/
theorem C3_counterexample :
    (get_model_status "t1" { status := some "SUCCEEDED", progress := some 100 }
      { model := some { status := "completed" }, stage := none }).source_calls = 1 ∧
    (get_model_status "t1" { status := some "SUCCEEDED", progress := some 100 }
      { model := some { status := "completed" }, stage := none }).db
      = { model := some { status := "completed" }, stage := none } ∧
    (get_model_status "t1" { status := some "SUCCEEDED", progress := some 100 }
      { model := some { status := "completed" }, stage := none }).publishes = 0 ∧
    (1 : Nat) ≠ 0 ∧
    (get_model_status "t2" { status := some "FAILED" }
      { model := some { status := "processing" }, stage := none }).db.model.map
        Model3D.status = some "failed" ∧
    (get_model_status "t2" { status := some "FAILED" }
      { model := some { status := "processing" }, stage := none }).commits = 1 ∧
    (get_model_status "t2" { status := some "FAILED" }
      { model := some { status := "processing" }, stage := none }).publishes = 0 ∧
    (0 : Nat) ≠ 1 := by
  refine ⟨rfl, rfl, rfl, by decide, rfl, rfl, rfl, by decide⟩

/-- C3 (amended): the terminal persistence side effect fires exactly
once per task, at the first status check that observes a terminal
vendor state while the stored record is not yet in that state.  On
SUCCEEDED the record is rewritten to completed, committed, and exactly
one terminal `product_update` event is published; on FAILED the record
is rewritten to failed and committed, but no terminal event is ever
published.  Every subsequent check of an already-terminal task returns
the cached record unchanged with no further side effects — but every
check, including checks of an already-terminal task, re-invokes the
external status source once. -/
theorem C3_amended (tid : String) (sd : StatusData) (db : DBState) (m : Model3D)
    (sdf : StatusData) (dbf : DBState) (mf : Model3D)
    (hm : db.model = some m) (hnc : m.status ≠ "completed")
    (hs : sd.status = some "SUCCEEDED")
    (hmf : dbf.model = some mf) (hnf : mf.status ≠ "failed")
    (hsf : sdf.status = some "FAILED") :
    (get_model_status tid sd db).publishes = 1 ∧
    (get_model_status tid sd db).commits = 1 ∧
    (get_model_status tid sd db).db.model.map Model3D.status = some "completed" ∧
    (get_model_status tid sd (get_model_status tid sd db).db).publishes = 0 ∧
    (get_model_status tid sd (get_model_status tid sd db).db).commits = 0 ∧
    (get_model_status tid sd (get_model_status tid sd db).db).db
      = (get_model_status tid sd db).db ∧
    (checkRepeat 3 tid sd db).2.1 = 1 ∧
    (checkRepeat 3 tid sd db).2.2.1 = 1 ∧
    (checkRepeat 3 tid sd db).2.2.2 = 3 ∧
    (get_model_status tid sd db).source_calls = 1 ∧
    (get_model_status tid sdf dbf).publishes = 0 ∧
    (get_model_status tid sdf dbf).commits = 1 ∧
    (get_model_status tid sdf dbf).db.model.map Model3D.status = some "failed" ∧
    (get_model_status tid sdf (get_model_status tid sdf dbf).db).publishes = 0 ∧
    (get_model_status tid sdf (get_model_status tid sdf dbf).db).commits = 0 ∧
    (get_model_status tid sdf (get_model_status tid sdf dbf).db).db
      = (get_model_status tid sdf dbf).db ∧
    (checkRepeat 3 tid sdf dbf).2.1 = 0 ∧
    (checkRepeat 3 tid sdf dbf).2.2.1 = 1 ∧
    (checkRepeat 3 tid sdf dbf).2.2.2 = 3 := by
  have hms : sd.status.getD "PENDING" = "SUCCEEDED" := by rw [hs]; rfl
  have hupd : update_db_on_status (sd.status.getD "PENDING") sd db =
      (⟨some (completed_model m sd),
        db.stage.map (fun st => completed_stage st (completed_model m sd))⟩, 1, 1) := by
    rw [hms]
    exact update_db_succ_first sd db m hm hnc
  have hdb1 : (get_model_status tid sd db).db =
      ⟨some (completed_model m sd),
        db.stage.map (fun st => completed_stage st (completed_model m sd))⟩ := by
    rw [gms_db, hupd]
  have hterm : update_db_on_status (sd.status.getD "PENDING") sd
      (get_model_status tid sd db).db = ((get_model_status tid sd db).db, 0, 0) := by
    rw [hms]
    exact update_db_succ_terminal sd _ (completed_model m sd) (by rw [hdb1]) rfl
  have hfix_db : (get_model_status tid sd (get_model_status tid sd db).db).db
      = (get_model_status tid sd db).db := by rw [gms_db, hterm]
  have hfix_p : (get_model_status tid sd (get_model_status tid sd db).db).publishes = 0 := by
    rw [gms_publishes, hterm]
  have hfix_c : (get_model_status tid sd (get_model_status tid sd db).db).commits = 0 := by
    rw [gms_commits, hterm]
  have hrep : checkRepeat 3 tid sd db =
      ((get_model_status tid sd db).db, 1, 1, 3) := by
    rw [show (3 : Nat) = 2 + 1 from rfl, checkRepeat_succ,
      checkRepeat_of_fixed tid sd _ hfix_db hfix_p hfix_c 2,
      gms_publishes, gms_commits, gms_source_calls, hupd]
    rfl
  have hmsf : sdf.status.getD "PENDING" = "FAILED" := by rw [hsf]; rfl
  have hupdf : update_db_on_status (sdf.status.getD "PENDING") sdf dbf =
      (⟨some (failed_model mf sdf), dbf.stage⟩, 0, 1) := by
    rw [hmsf]
    exact update_db_failed_first sdf dbf mf hmf hnf
  have hdb1f : (get_model_status tid sdf dbf).db =
      ⟨some (failed_model mf sdf), dbf.stage⟩ := by
    rw [gms_db, hupdf]
  have htermf : update_db_on_status (sdf.status.getD "PENDING") sdf
      (get_model_status tid sdf dbf).db = ((get_model_status tid sdf dbf).db, 0, 0) := by
    rw [hmsf]
    exact update_db_failed_terminal sdf _ (failed_model mf sdf) (by rw [hdb1f]) rfl
  have hfixf_db : (get_model_status tid sdf (get_model_status tid sdf dbf).db).db
      = (get_model_status tid sdf dbf).db := by rw [gms_db, htermf]
  have hfixf_p : (get_model_status tid sdf
      (get_model_status tid sdf dbf).db).publishes = 0 := by
    rw [gms_publishes, htermf]
  have hfixf_c : (get_model_status tid sdf
      (get_model_status tid sdf dbf).db).commits = 0 := by
    rw [gms_commits, htermf]
  have hrepf : checkRepeat 3 tid sdf dbf =
      ((get_model_status tid sdf dbf).db, 0, 1, 3) := by
    rw [show (3 : Nat) = 2 + 1 from rfl, checkRepeat_succ,
      checkRepeat_of_fixed tid sdf _ hfixf_db hfixf_p hfixf_c 2,
      gms_publishes, gms_commits, gms_source_calls, hupdf]
    rfl
  refine ⟨by rw [gms_publishes, hupd], by rw [gms_commits, hupd],
    by rw [hdb1]; rfl,
    hfix_p, hfix_c, hfix_db, by rw [hrep], by rw [hrep], by rw [hrep],
    gms_source_calls tid sd db,
    by rw [gms_publishes, hupdf], by rw [gms_commits, hupdf],
    by rw [hdb1f]; rfl,
    hfixf_p, hfixf_c, hfixf_db, by rw [hrepf], by rw [hrepf], by rw [hrepf]⟩

/-- C3 witness: the amended theorem evaluated on concrete non-terminal
records, one against a SUCCEEDED vendor payload and one against a
FAILED vendor payload. -/
theorem C3_amended_witness :
    (get_model_status "t9" { status := some "SUCCEEDED" }
      { model := some { status := "processing" }, stage := none }).publishes = 1 ∧
    (get_model_status "t9" { status := some "SUCCEEDED" }
      { model := some { status := "processing" }, stage := none }).commits = 1 ∧
    (get_model_status "t9" { status := some "SUCCEEDED" }
      { model := some { status := "processing" }, stage := none }).db.model.map
        Model3D.status = some "completed" ∧
    (get_model_status "t9" { status := some "SUCCEEDED" }
      (get_model_status "t9" { status := some "SUCCEEDED" }
        { model := some { status := "processing" }, stage := none }).db).publishes = 0 ∧
    (get_model_status "t9" { status := some "SUCCEEDED" }
      (get_model_status "t9" { status := some "SUCCEEDED" }
        { model := some { status := "processing" }, stage := none }).db).commits = 0 ∧
    (get_model_status "t9" { status := some "SUCCEEDED" }
      (get_model_status "t9" { status := some "SUCCEEDED" }
        { model := some { status := "processing" }, stage := none }).db).db
      = (get_model_status "t9" { status := some "SUCCEEDED" }
          { model := some { status := "processing" }, stage := none }).db ∧
    (checkRepeat 3 "t9" { status := some "SUCCEEDED" }
      { model := some { status := "processing" }, stage := none }).2.1 = 1 ∧
    (checkRepeat 3 "t9" { status := some "SUCCEEDED" }
      { model := some { status := "processing" }, stage := none }).2.2.1 = 1 ∧
    (checkRepeat 3 "t9" { status := some "SUCCEEDED" }
      { model := some { status := "processing" }, stage := none }).2.2.2 = 3 ∧
    (get_model_status "t9" { status := some "SUCCEEDED" }
      { model := some { status := "processing" }, stage := none }).source_calls = 1 ∧
    (get_model_status "t9" { status := some "FAILED" }
      { model := some { status := "processing" }, stage := none }).publishes = 0 ∧
    (get_model_status "t9" { status := some "FAILED" }
      { model := some { status := "processing" }, stage := none }).commits = 1 ∧
    (get_model_status "t9" { status := some "FAILED" }
      { model := some { status := "processing" }, stage := none }).db.model.map
        Model3D.status = some "failed" ∧
    (get_model_status "t9" { status := some "FAILED" }
      (get_model_status "t9" { status := some "FAILED" }
        { model := some { status := "processing" }, stage := none }).db).publishes = 0 ∧
    (get_model_status "t9" { status := some "FAILED" }
      (get_model_status "t9" { status := some "FAILED" }
        { model := some { status := "processing" }, stage := none }).db).commits = 0 ∧
    (get_model_status "t9" { status := some "FAILED" }
      (get_model_status "t9" { status := some "FAILED" }
        { model := some { status := "processing" }, stage := none }).db).db
      = (get_model_status "t9" { status := some "FAILED" }
          { model := some { status := "processing" }, stage := none }).db ∧
    (checkRepeat 3 "t9" { status := some "FAILED" }
      { model := some { status := "processing" }, stage := none }).2.1 = 0 ∧
    (checkRepeat 3 "t9" { status := some "FAILED" }
      { model := some { status := "processing" }, stage := none }).2.2.1 = 1 ∧
    (checkRepeat 3 "t9" { status := some "FAILED" }
      { model := some { status := "processing" }, stage := none }).2.2.2 = 3 :=
  C3_amended "t9" { status := some "SUCCEEDED" }
    { model := some { status := "processing" }, stage := none }
    { status := "processing" }
    { status := some "FAILED" }
    { model := some { status := "processing" }, stage := none }
    { status := "processing" }
    rfl (by decide) rfl rfl (by decide) rfl

/-- C4 helper: for a non-mock task id, a non-200 response or a raised
exception makes `MeshyService.get_status` return a synthetic payload
with vendor status FAILED and no message or progress fields. -/
theorem meshy_transient_status (tid : String) (r : HttpResult)
    (hmock : strStartsWith tid "mock_" = false) (hr : ∀ b, r ≠ HttpResult.ok b) :
    (MeshyService.get_status tid r).status = some "FAILED" ∧
    (MeshyService.get_status tid r).message = none ∧
    (MeshyService.get_status tid r).progress = none := by
  unfold MeshyService.get_status
  rw [if_neg (by simp [hmock]), if_neg (by decide)]
  cases r with
  | ok b => exact absurd rfl (hr b)
  | httpError code txt => exact ⟨rfl, rfl, rfl⟩
  | exc e => exact ⟨rfl, rfl, rfl⟩

/-- C4 counterexample: for task `abc123` with a stored record in state
`processing`, a transient HTTP 500 from the status source makes the
check rewrite the stored record to terminal `failed` (mutating canonical
state) and report terminal status `failed` to the caller — the claim
says such a check is surfaced as retryable and leaves the record
unchanged. -/
theorem C4_counterexample :
    (checkOnce "abc123" (HttpResult.httpError 500 "Internal Server Error")
      { model := some { status := "processing" }, stage := none }).db
      ≠ { model := some { status := "processing" }, stage := none } ∧
    (checkOnce "abc123" (HttpResult.httpError 500 "Internal Server Error")
      { model := some { status := "processing" }, stage := none }).db.model.map
        Model3D.status = some "failed" ∧
    (checkOnce "abc123" (HttpResult.httpError 500 "Internal Server Error")
      { model := some { status := "processing" }, stage := none }).response.status
      = "failed" ∧
    (checkOnce "abc123" (HttpResult.httpError 500 "Internal Server Error")
      { model := some { status := "processing" }, stage := none }).commits = 1 := by
  have hfail : (checkOnce "abc123" (HttpResult.httpError 500 "Internal Server Error")
      { model := some { status := "processing" }, stage := none }).db.model.map
        Model3D.status = some "failed" := rfl
  refine ⟨?_, hfail, rfl, rfl⟩
  intro h
  rw [h] at hfail
  exact absurd hfail (by decide)

/-- C4 (amended): a transient error from the status source (non-200
response or network exception) during a check of a non-mock task is
folded into the terminal FAILED mapping: if the stored record is not
already failed, the check rewrites its status to `failed` with the
default error message and commits (mutating canonical state), and the
caller receives terminal status `failed` with progress 0 — not a
retryable failure. -/
theorem C4_amended (tid : String) (r : HttpResult) (db : DBState) (m : Model3D)
    (hmock : strStartsWith tid "mock_" = false) (hr : ∀ b, r ≠ HttpResult.ok b)
    (hm : db.model = some m) (hnf : m.status ≠ "failed") :
    (checkOnce tid r db).db.model =
      some { m with status := "failed", error_message := some "Generation failed" } ∧
    (checkOnce tid r db).db.stage = db.stage ∧
    (checkOnce tid r db).response.status = "failed" ∧
    (checkOnce tid r db).response.progress = 0 ∧
    (checkOnce tid r db).publishes = 0 ∧
    (checkOnce tid r db).commits = 1 := by
  obtain ⟨hst, hmsg, hprog⟩ := meshy_transient_status tid r hmock hr
  have hms : (MeshyService.get_status tid r).status.getD "PENDING" = "FAILED" := by
    rw [hst]; rfl
  have hupd : update_db_on_status
      ((MeshyService.get_status tid r).status.getD "PENDING")
      (MeshyService.get_status tid r) db =
      (⟨some (failed_model m (MeshyService.get_status tid r)), db.stage⟩, 0, 1) := by
    rw [hms]
    exact update_db_failed_first _ db m hm hnf
  have hfm : failed_model m (MeshyService.get_status tid r) =
      { m with status := "failed", error_message := some "Generation failed" } := by
    unfold failed_model
    rw [hmsg]
    rfl
  have hmap : map_meshy_status ((MeshyService.get_status tid r).status.getD "PENDING")
      ((MeshyService.get_status tid r).progress.getD 0) = ("failed", 0) := by
    rw [hms]
    exact map_meshy_failed _
  refine ⟨?_, ?_, ?_, ?_, ?_, ?_⟩
  · show (get_model_status tid (MeshyService.get_status tid r) db).db.model = _
    rw [gms_db, hupd, ← hfm]
  · show (get_model_status tid (MeshyService.get_status tid r) db).db.stage = _
    rw [gms_db, hupd]
  · show (get_model_status tid (MeshyService.get_status tid r) db).response.status = _
    rw [gms_response_status, hmap]
  · show (get_model_status tid (MeshyService.get_status tid r) db).response.progress = _
    rw [gms_response_progress, hmap]
  · show (get_model_status tid (MeshyService.get_status tid r) db).publishes = _
    rw [gms_publishes, hupd]
  · show (get_model_status tid (MeshyService.get_status tid r) db).commits = _
    rw [gms_commits, hupd]

/-- C4 witness: the amended theorem evaluated on task `abc123`, a 500
response and a stored record in state `processing`. -/
theorem C4_amended_witness :
    (checkOnce "abc123" (HttpResult.httpError 500 "oops")
      { model := some { status := "processing" }, stage := none }).db.model =
      some { ({ status := "processing" } : Model3D) with
              status := "failed", error_message := some "Generation failed" } ∧
    (checkOnce "abc123" (HttpResult.httpError 500 "oops")
      { model := some { status := "processing" }, stage := none }).db.stage = none ∧
    (checkOnce "abc123" (HttpResult.httpError 500 "oops")
      { model := some { status := "processing" }, stage := none }).response.status
      = "failed" ∧
    (checkOnce "abc123" (HttpResult.httpError 500 "oops")
      { model := some { status := "processing" }, stage := none }).response.progress = 0 ∧
    (checkOnce "abc123" (HttpResult.httpError 500 "oops")
      { model := some { status := "processing" }, stage := none }).publishes = 0 ∧
    (checkOnce "abc123" (HttpResult.httpError 500 "oops")
      { model := some { status := "processing" }, stage := none }).commits = 1 :=
  C4_amended "abc123" (HttpResult.httpError 500 "oops")
    { model := some { status := "processing" }, stage := none }
    { status := "processing" } (by decide) (fun b hb => HttpResult.noConfusion hb)
    rfl (by decide)

/-! ### C9: the transparent-image skip path -/

/-- C9: a unit whose downloaded image is already transparent
short-circuits to the skip result — a success with zero cost, zero
processing time, provider `skip` — and the background-removal provider
is never invoked (the provider call count is 0). -/
theorem C9_skip_path (env : UnitEnv) (image_url product_id : String) (image_order : Nat)
    (hd : env.downloaded = true) (ht : env.alreadyTransparent = true) :
    process_image env image_url product_id image_order =
      (create_skip_result image_url product_id image_order, 0) ∧
    (create_skip_result image_url product_id image_order).success = true ∧
    (create_skip_result image_url product_id image_order).cost = some 0 ∧
    (create_skip_result image_url product_id image_order).processing_time = some 0 ∧
    (create_skip_result image_url product_id image_order).provider = "skip" ∧
    (process_image env image_url product_id image_order).2 = 0 := by
  have h1 : process_image env image_url product_id image_order =
      (create_skip_result image_url product_id image_order, 0) := by
    unfold process_image
    rw [hd]
    simp [ht]
  exact ⟨h1, rfl, rfl, rfl, rfl, by rw [h1]⟩

/-- C9 witness: the skip path evaluated on a concrete transparent unit. -/
theorem C9_skip_path_witness :
    process_image
      { downloaded := true, alreadyTransparent := true, providerAvailable := true }
      "http://x/img.png" "p1" 0 = (create_skip_result "http://x/img.png" "p1" 0, 0) ∧
    (create_skip_result "http://x/img.png" "p1" 0).success = true ∧
    (create_skip_result "http://x/img.png" "p1" 0).cost = some 0 ∧
    (create_skip_result "http://x/img.png" "p1" 0).processing_time = some 0 ∧
    (create_skip_result "http://x/img.png" "p1" 0).provider = "skip" ∧
    (process_image
      { downloaded := true, alreadyTransparent := true, providerAvailable := true }
      "http://x/img.png" "p1" 0).2 = 0 :=
  C9_skip_path
    { downloaded := true, alreadyTransparent := true, providerAvailable := true }
    "http://x/img.png" "p1" 0 rfl rfl

/-! ### C2: the concurrency ceiling of the semaphore -/

/-- Replacing the element at an occupied index exchanges its
contribution to `countP`. -/
theorem countP_set_exchange (p : UnitPhase → Bool) :
    ∀ (l : List UnitPhase) (i : Nat) (a b : UnitPhase), l.get? i = some a →
      (l.set i b).countP p + (if p a then 1 else 0) =
        l.countP p + (if p b then 1 else 0) := by
  intro l
  induction l with
  | nil => intro i a b h; simp at h
  | cons x xs ih =>
    intro i a b h
    cases i with
    | zero =>
      rw [List.get?_cons_zero] at h
      injection h with h
      subst h
      simp only [List.set, List.countP_cons]
      omega
    | succ j =>
      rw [List.get?_cons_succ] at h
      simp only [List.set, List.countP_cons]
      have h2 := ih j a b h
      omega

/-- No unit of the initial batch state is running. -/
theorem countP_replicate_waiting (n : Nat) :
    (List.replicate n UnitPhase.waiting).countP UnitPhase.isRunning = 0 := by
  induction n with
  | zero => rfl
  | succ k ih => simp [List.replicate, List.countP_cons, ih, UnitPhase.isRunning]

/-- One semaphore transition preserves the accounting invariant. -/
theorem sem_step_invariant {k : Nat} {s t : SemState} (hstep : SemStep s t)
    (hs : s.permits + s.inflight = k) : t.permits + t.inflight = k := by
  cases hstep with
  | acquire i hp hk =>
    have hc := countP_set_exchange UnitPhase.isRunning s.phases i
      UnitPhase.waiting UnitPhase.running hp
    simp [UnitPhase.isRunning] at hc
    simp only [SemState.inflight] at hs ⊢
    omega
  | release i hp =>
    have hc := countP_set_exchange UnitPhase.isRunning s.phases i
      UnitPhase.running UnitPhase.done hp
    simp [UnitPhase.isRunning] at hc
    simp only [SemState.inflight] at hs ⊢
    omega

/-- The accounting invariant of the semaphore: free permits plus admitted
units always equals the configured ceiling. -/
theorem sem_invariant (k n : Nat) (s : SemState) (h : SemReachable k n s) :
    s.permits + s.inflight = k := by
  induction h with
  | init =>
    simp [SemState.inflight, countP_replicate_waiting]
  | step hr hstep ih => exact sem_step_invariant hstep ih

/-- C2: for `maxConcurrency = k` and any batch of `n ≥ k` units run
through `process_batch`, the number of units holding a semaphore permit
— and hence the number of in-flight Provider invocations — never
exceeds `k` in any state reachable while the batch executes. -/
theorem C2_concurrency_bound (k n : Nat) (s : SemState)
    (_hn : k ≤ n) (h : SemReachable k n s) : s.inflight ≤ k := by
  have hi := sem_invariant k n s h
  omega

/-- C2 witness: with ceiling 1 and two units, the state reached after
one admission has one unit in flight, within the bound. -/
theorem C2_concurrency_bound_witness :
    SemState.inflight ⟨0, [UnitPhase.running, UnitPhase.waiting]⟩ ≤ 1 :=
  C2_concurrency_bound 1 2 ⟨0, [UnitPhase.running, UnitPhase.waiting]⟩ (by decide)
    (SemReachable.step SemReachable.init
      (SemStep.acquire ⟨1, List.replicate 2 UnitPhase.waiting⟩ 0 rfl (by decide)))

/-! ### C1: process_batch length, order preservation and failure isolation -/

/-- A slot of the gather fold holds the value of its own index once that
index has completed, whatever the completion order around it. -/
theorem foldl_set_get {α : Type} (g : Nat → α) :
    ∀ (σ : List Nat) (init : List α) (j : Nat),
      (σ.foldl (fun s i => s.set i (g i)) init)[j]? =
        if j ∈ σ ∧ j < init.length then some (g j) else init[j]? := by
  intro σ
  induction σ with
  | nil =>
    intro init j
    simp
  | cons i rest ih =>
    intro init j
    rw [List.foldl_cons, ih, List.length_set]
    by_cases hlen : j < init.length
    · by_cases hjr : j ∈ rest
      · simp [hjr, hlen]
      · by_cases hij : j = i
        · subst hij
          simp [hjr, hlen, List.getElem?_set_eq_of_lt (g j) hlen]
        · have hne : (init.set i (g i))[j]? = init[j]? :=
            List.getElem?_set_ne (fun h => hij h.symm)
          simp [hjr, hlen, hij, hne]
    · have h1 : init[j]? = none := List.getElem?_eq_none (le_of_not_lt hlen)
      have h2 : (init.set i (g i))[j]? = none := by
        apply List.getElem?_eq_none
        rw [List.length_set]
        exact le_of_not_lt hlen
      simp [hlen, h1, h2]

/-- A complete execution (its completion order is a permutation of the
submission indices) fills every slot with the outcome of its own unit:
`gather` is completion-order independent. -/
theorem gatherRun_complete (outcomes : List (Except String ImageResult)) (σ : List Nat)
    (hperm : σ.Perm (List.range outcomes.length)) :
    gatherRun outcomes σ = outcomes.map some := by
  apply List.ext_getElem?
  intro j
  have hmem : j ∈ σ ↔ j < outcomes.length := by
    rw [hperm.mem_iff, List.mem_range]
  rw [show gatherRun outcomes σ =
        σ.foldl (fun s i => s.set i ((fun i => outcomes[i]?) i))
          (List.replicate outcomes.length none) from rfl,
      foldl_set_get, List.length_replicate]
  by_cases hj : j < outcomes.length
  · rw [if_pos ⟨hmem.mpr hj, hj⟩]
    show some outcomes[j]? = (outcomes.map some)[j]?
    rw [List.getElem?_map some outcomes j, List.getElem?_eq_getElem hj]
    rfl
  · rw [if_neg (fun hc => hj hc.2)]
    have h2 : (List.replicate outcomes.length
        (none : Option (Except String ImageResult)))[j]? = none := by
      apply List.getElem?_eq_none
      rw [List.length_replicate]
      exact le_of_not_lt hj
    rw [h2, List.getElem?_map some outcomes j,
      List.getElem?_eq_none (le_of_not_lt hj)]
    rfl

/-- Element `j` of the post-processed batch result is determined by
the outcome and input URL of unit `j` alone. -/
theorem batch_result_get (outcomes : List (Except String ImageResult))
    (image_urls : List String) (j : Nat) (o : Except String ImageResult) (u : String)
    (ho : outcomes[j]? = some o) (hu : image_urls[j]? = some u) :
    ((outcomes.zip image_urls).map fun p => handleOutcome p.2 p.1)[j]?
      = some (handleOutcome u o) := by
  have hz : (outcomes.zip image_urls)[j]? = some (o, u) :=
    (List.getElem?_zip_eq_some).mpr ⟨ho, hu⟩
  rw [List.getElem?_map, hz]
  rfl

/-- C1: for a batch of `n` input URLs, `process_batch` completes with a
result list of exactly `n` entries positionally matching the inputs
regardless of the completion order `σ`; a unit whose task raised
produces a failed result dict at the index of that unit, while every other
index keeps the real outcome of its own unit. -/
theorem C1_batch_order_and_isolation (image_urls : List String)
    (outcomes : List (Except String ImageResult)) (σ : List Nat)
    (hlen : outcomes.length = image_urls.length)
    (hperm : σ.Perm (List.range image_urls.length)) :
    process_batch image_urls outcomes σ =
      some ((outcomes.zip image_urls).map fun p => handleOutcome p.2 p.1) ∧
    ((outcomes.zip image_urls).map fun p => handleOutcome p.2 p.1).length
      = image_urls.length ∧
    (∀ (j : Nat) (r : ImageResult), outcomes[j]? = some (Except.ok r) →
      ((outcomes.zip image_urls).map fun p => handleOutcome p.2 p.1)[j]? = some r) ∧
    (∀ (j : Nat) (e : String) (u : String),
      outcomes[j]? = some (Except.error e) → image_urls[j]? = some u →
      ((outcomes.zip image_urls).map fun p => handleOutcome p.2 p.1)[j]?
        = some (exception_result u e) ∧ (exception_result u e).success = false) := by
  have hg : gatherRun outcomes σ = outcomes.map some :=
    gatherRun_complete outcomes σ (by rw [hlen]; exact hperm)
  refine ⟨?_, ?_, ?_, ?_⟩
  · unfold process_batch
    rw [hg]
    simp
  · simp [hlen]
  · intro j r hr
    have hj : j < outcomes.length := (List.getElem?_eq_some.mp hr).1
    have hj2 : j < image_urls.length := hlen ▸ hj
    exact batch_result_get outcomes image_urls j (Except.ok r)
      (image_urls.get ⟨j, hj2⟩) hr (List.getElem?_eq_getElem hj2)
  · intro j e u he hu
    exact ⟨batch_result_get outcomes image_urls j (Except.error e) u he hu, rfl⟩

/-- C1 witness: a three-unit batch in which unit 1 raised and the
completion order is reversed still yields the positional results. -/
theorem C1_batch_witness :
    process_batch ["a", "b", "c"]
      [Except.ok (create_skip_result "a" "p" 0), Except.error "boom",
       Except.ok (create_skip_result "c" "p" 2)] [2, 1, 0] =
      some (([Except.ok (create_skip_result "a" "p" 0), Except.error "boom",
        Except.ok (create_skip_result "c" "p" 2)].zip ["a", "b", "c"]).map
          fun p => handleOutcome p.2 p.1) ∧
    (([Except.ok (create_skip_result "a" "p" 0), Except.error "boom",
        Except.ok (create_skip_result "c" "p" 2)].zip ["a", "b", "c"]).map
          fun p => handleOutcome p.2 p.1).length = (["a", "b", "c"] : List String).length ∧
    (∀ (j : Nat) (r : ImageResult),
      ([Except.ok (create_skip_result "a" "p" 0), Except.error "boom",
        Except.ok (create_skip_result "c" "p" 2)] :
          List (Except String ImageResult))[j]? = some (Except.ok r) →
      (([Except.ok (create_skip_result "a" "p" 0), Except.error "boom",
        Except.ok (create_skip_result "c" "p" 2)].zip ["a", "b", "c"]).map
          fun p => handleOutcome p.2 p.1)[j]? = some r) ∧
    (∀ (j : Nat) (e : String) (u : String),
      ([Except.ok (create_skip_result "a" "p" 0), Except.error "boom",
        Except.ok (create_skip_result "c" "p" 2)] :
          List (Except String ImageResult))[j]? = some (Except.error e) →
      (["a", "b", "c"] : List String)[j]? = some u →
      (([Except.ok (create_skip_result "a" "p" 0), Except.error "boom",
        Except.ok (create_skip_result "c" "p" 2)].zip ["a", "b", "c"]).map
          fun p => handleOutcome p.2 p.1)[j]?
        = some (exception_result u e) ∧ (exception_result u e).success = false) :=
  C1_batch_order_and_isolation ["a", "b", "c"]
    [Except.ok (create_skip_result "a" "p" 0), Except.error "boom",
     Except.ok (create_skip_result "c" "p" 2)] [2, 1, 0] rfl (by decide)

/-! ### C5/C6: broadcaster lemmas -/

/-- `removeFirst` only ever drops an element. -/
theorem removeFirst_sublist (l : List Conn) (a : Conn) :
    List.Sublist (removeFirst l a) l := by
  induction l with
  | nil => exact List.Sublist.refl []
  | cons y ys ih =>
    by_cases hy : y = a
    · rw [removeFirst, if_pos hy]
      exact List.sublist_cons_self y ys
    · rw [removeFirst, if_neg hy]
      exact ih.cons₂ y

theorem removeFirst_eq_of_not_mem {l : List Conn} {a : Conn} (h : a ∉ l) :
    removeFirst l a = l := by
  induction l with
  | nil => rfl
  | cons y ys ih =>
    have hy : y ≠ a := fun hc => h (hc ▸ List.mem_cons_self y ys)
    rw [removeFirst, if_neg hy, ih (fun hc => h (List.mem_cons_of_mem y hc))]

theorem not_mem_removeFirst {l : List Conn} {a : Conn} (h : l.Nodup) :
    a ∉ removeFirst l a := by
  induction l with
  | nil => simp [removeFirst]
  | cons y ys ih =>
    rcases List.nodup_cons.mp h with ⟨hy, hys⟩
    by_cases hya : y = a
    · rw [removeFirst, if_pos hya]
      exact fun hc => hy (hya ▸ hc)
    · rw [removeFirst, if_neg hya]
      intro hc
      rcases List.mem_cons.mp hc with h1 | h2
      · exact hya h1.symm
      · exact ih hys h2

theorem length_removeFirst {l : List Conn} {a : Conn} (h : a ∈ l) :
    (removeFirst l a).length + 1 = l.length := by
  induction l with
  | nil => cases h
  | cons y ys ih =>
    by_cases hy : y = a
    · rw [removeFirst, if_pos hy]
      rfl
    · rw [removeFirst, if_neg hy]
      have h2 : a ∈ ys := by
        rcases List.mem_cons.mp h with h1 | h1
        · exact absurd h1.symm hy
        · exact h1
      simp [List.length_cons, ← ih h2]

/-- What one disconnect does to one subscription entry. -/
theorem dcEntry_shape {ws : Conn} {q p : String × List Conn}
    (h : dcEntry ws q = some p) :
    p.1 = q.1 ∧
      ((ws ∈ q.2 ∧ p.2 = removeFirst q.2 ws ∧ removeFirst q.2 ws ≠ []) ∨
       (ws ∉ q.2 ∧ p.2 = q.2)) := by
  unfold dcEntry at h
  by_cases hw : ws ∈ q.2
  · rw [if_pos hw] at h
    by_cases hl : removeFirst q.2 ws = []
    · rw [if_pos hl] at h
      cases h
    · rw [if_neg hl] at h
      injection h with h
      subst h
      exact ⟨rfl, Or.inl ⟨hw, rfl, hl⟩⟩
  · rw [if_neg hw] at h
    injection h with h
    subst h
    exact ⟨rfl, Or.inr ⟨hw, rfl⟩⟩

/-- Per-entry nodup lists. -/
def SubsNodup (m : ConnectionManager) : Prop := ∀ p ∈ m.subscriptions, p.2.Nodup

/-- Distinct subscription keys (a Python dict cannot repeat keys). -/
def KeysNodup (m : ConnectionManager) : Prop := (m.subscriptions.map Prod.fst).Nodup

/-- After `disconnect ws`, no subscription entry contains `ws`. -/
theorem disconnect_not_in_subs (m : ConnectionManager) (ws : Conn) (hs : SubsNodup m) :
    ∀ p ∈ (m.disconnect ws).subscriptions, ws ∉ p.2 := by
  intro p hp
  rcases List.mem_filterMap.mp hp with ⟨q, hq, hdc⟩
  rcases dcEntry_shape hdc with ⟨_, (⟨hw, hp2, _⟩ | ⟨hw, hp2⟩)⟩
  · rw [hp2]
    exact not_mem_removeFirst (hs q hq)
  · rw [hp2]
    exact hw

/-- A connection absent from every entry stays absent after any
disconnect. -/
theorem disconnect_preserves_not_in (m : ConnectionManager) (ws w : Conn)
    (h : ∀ p ∈ m.subscriptions, ws ∉ p.2) :
    ∀ p ∈ (m.disconnect w).subscriptions, ws ∉ p.2 := by
  intro p hp
  rcases List.mem_filterMap.mp hp with ⟨q, hq, hdc⟩
  rcases dcEntry_shape hdc with ⟨_, (⟨_, hp2, _⟩ | ⟨_, hp2⟩)⟩
  · rw [hp2]
    exact fun hc => h q hq ((removeFirst_sublist q.2 w).subset hc)
  · rw [hp2]
    exact h q hq

theorem disconnect_preserves_subsNodup (m : ConnectionManager) (ws : Conn)
    (hs : SubsNodup m) : SubsNodup (m.disconnect ws) := by
  intro p hp
  rcases List.mem_filterMap.mp hp with ⟨q, hq, hdc⟩
  rcases dcEntry_shape hdc with ⟨_, (⟨_, hp2, _⟩ | ⟨_, hp2⟩)⟩
  · rw [hp2]
    exact (hs q hq).sublist (removeFirst_sublist q.2 ws)
  · rw [hp2]
    exact hs q hq

/-- Disconnecting keeps the key sequence a subsequence of what it was. -/
theorem keys_filterMap_dcEntry (ws : Conn) :
    ∀ subs : List (String × List Conn),
      List.Sublist ((subs.filterMap (dcEntry ws)).map Prod.fst) (subs.map Prod.fst) := by
  intro subs
  induction subs with
  | nil => exact List.Sublist.refl []
  | cons q rest ih =>
    cases hdc : dcEntry ws q with
    | none =>
      rw [List.filterMap_cons_none hdc, List.map_cons]
      exact ih.cons q.1
    | some p =>
      rw [List.filterMap_cons_some hdc, List.map_cons, List.map_cons,
        (dcEntry_shape hdc).1]
      exact ih.cons₂ q.1

theorem disconnect_preserves_keysNodup (m : ConnectionManager) (ws : Conn)
    (hk : KeysNodup m) : KeysNodup (m.disconnect ws) :=
  hk.sublist (keys_filterMap_dcEntry ws m.subscriptions)

/-- A key absent from the dict looks up to the empty list. -/
theorem subsLookup_eq_nil {e : String} :
    ∀ subs : List (String × List Conn), e ∉ subs.map Prod.fst →
      subsLookup subs e = [] := by
  intro subs
  induction subs with
  | nil => intro _; rfl
  | cons p rest ih =>
    intro h
    have hne : (p.1 == e) = false := by
      simp only [beq_eq_false_iff_ne]
      exact fun hc => h (List.mem_map.mpr ⟨p, List.mem_cons_self p rest, hc⟩)
    rw [subsLookup, List.find?_cons_of_neg _ (by simp [hne])]
    exact ih (fun hc => h (List.mem_cons_of_mem _ hc))

/-- The central pruning fact: after `disconnect ws`, the subscriber list
of every entity is the old list with the first `ws` removed. -/
theorem subsLookup_disconnect (ws : Conn) (e : String) :
    ∀ subs : List (String × List Conn), (subs.map Prod.fst).Nodup →
      subsLookup (subs.filterMap (dcEntry ws)) e = removeFirst (subsLookup subs e) ws := by
  intro subs
  induction subs with
  | nil => intro _; rfl
  | cons p rest ih =>
    intro hk
    rcases List.nodup_cons.mp hk with ⟨hk1, hk2⟩
    by_cases he : p.1 = e
    · have hbeq : (p.1 == e) = true := by simp [he]
      have hrhs : subsLookup (p :: rest) e = p.2 := by
        rw [subsLookup, List.find?_cons_of_pos _ (by simp [hbeq])]
      by_cases hw : ws ∈ p.2
      · by_cases hl : removeFirst p.2 ws = []
        · have hdc : dcEntry ws p = none := by
            rw [dcEntry, if_pos hw, if_pos hl]
          rw [List.filterMap_cons_none hdc, hrhs, hl]
          apply subsLookup_eq_nil
          intro hc
          exact hk1 (he ▸ (keys_filterMap_dcEntry ws rest).subset hc)
        · have hdc : dcEntry ws p = some (p.1, removeFirst p.2 ws) := by
            rw [dcEntry, if_pos hw, if_neg hl]
          rw [List.filterMap_cons_some hdc, hrhs, subsLookup,
            List.find?_cons_of_pos _ (by simp [hbeq])]
      · have hdc : dcEntry ws p = some p := by
          rw [dcEntry, if_neg hw]
        rw [List.filterMap_cons_some hdc, hrhs, subsLookup,
          List.find?_cons_of_pos _ (by simp [hbeq]),
          removeFirst_eq_of_not_mem hw]
    · have hbeq : (p.1 == e) = false := by simp [he]
      have hrhs : subsLookup (p :: rest) e = subsLookup rest e := by
        rw [subsLookup, List.find?_cons_of_neg _ (by simp [hbeq])]
        rfl
      rw [hrhs, ← ih hk2]
      cases hdc : dcEntry ws p with
      | none => rw [List.filterMap_cons_none hdc]
      | some q =>
        rw [List.filterMap_cons_some hdc, subsLookup,
          List.find?_cons_of_neg _ (by simp [(dcEntry_shape hdc).1, hbeq, he])]
        rfl

/-- A member of a subscriber list belongs to some entry of the dict. -/
theorem subscribersOf_mem_entry (m : ConnectionManager) (e : String) (w : Conn)
    (h : w ∈ m.subscribersOf e) : ∃ p ∈ m.subscriptions, w ∈ p.2 := by
  unfold ConnectionManager.subscribersOf subsLookup at h
  cases hf : m.subscriptions.find? (fun p => p.1 == e) with
  | none => rw [hf] at h; cases h
  | some p =>
    rw [hf] at h
    exact ⟨p, List.mem_of_find?_eq_some hf, h⟩

/-- The subscriber list of any entity is duplicate free when every entry
is. -/
theorem subscribersOf_nodup (m : ConnectionManager) (e : String) (hs : SubsNodup m) :
    (m.subscribersOf e).Nodup := by
  unfold ConnectionManager.subscribersOf subsLookup
  cases hf : m.subscriptions.find? (fun p => p.1 == e) with
  | none => exact List.nodup_nil
  | some p => exact hs p (List.mem_of_find?_eq_some hf)

/-- When the write to exactly one subscriber fails, the dead list of the
publish loop is that one connection. -/
theorem filter_fails_singleton {l : List Conn} {ws : Conn} {fails : Conn → Bool}
    (hnd : l.Nodup) (hmem : ws ∈ l) (hws : fails ws = true)
    (honly : ∀ w ∈ l, w ≠ ws → fails w = false) : l.filter fails = [ws] := by
  induction l with
  | nil => cases hmem
  | cons y ys ih =>
    rcases List.nodup_cons.mp hnd with ⟨hy, hys⟩
    by_cases hyw : y = ws
    · subst hyw
      rw [List.filter_cons_of_pos hws]
      have hnil : ys.filter fails = [] := by
        apply List.filter_eq_nil_iff.mpr
        intro w hw
        rw [honly w (List.mem_cons_of_mem y hw) (fun hc => hy (hc ▸ hw))]
        exact Bool.false_ne_true
      rw [hnil]
    · have hyf : fails y = false := honly y (List.mem_cons_self y ys) hyw
      rw [List.filter_cons_of_neg (by simp [hyf])]
      have hmem2 : ws ∈ ys := by
        rcases List.mem_cons.mp hmem with h1 | h1
        · exact absurd h1.symm hyw
        · exact h1
      exact ih hys hmem2 (fun w hw hne => honly w (List.mem_cons_of_mem y hw) hne)

/-- Disconnecting never leaves an entry with an empty subscriber list. -/
theorem noEmpty_disconnect (m : ConnectionManager) (ws : Conn)
    (h : NoEmptySubs m) : NoEmptySubs (m.disconnect ws) := by
  intro p hp
  rcases List.mem_filterMap.mp hp with ⟨q, hq, hdc⟩
  rcases dcEntry_shape hdc with ⟨_, (⟨_, hp2, hne⟩ | ⟨_, hp2⟩)⟩
  · rw [hp2]
    exact hne
  · rw [hp2]
    exact h q hq

theorem noEmpty_foldl_disconnect (dead : List Conn) :
    ∀ m : ConnectionManager, NoEmptySubs m →
      NoEmptySubs (dead.foldl (fun st w => st.disconnect w) m) := by
  induction dead with
  | nil => exact fun m h => h
  | cons d rest ih =>
    intro m h
    rw [List.foldl_cons]
    exact ih _ (noEmpty_disconnect m d h)

theorem noEmpty_subscribe (m : ConnectionManager) (id : String) (ws : Conn)
    (h : NoEmptySubs m) : NoEmptySubs (m.subscribe id ws) := by
  intro p hp
  unfold ConnectionManager.subscribe at hp
  by_cases hkey : m.subscriptions.any (fun q => q.1 == id) = true
  · rw [if_pos hkey] at hp
    rcases List.mem_map.mp hp with ⟨q, hq, hfq⟩
    by_cases hqe : (q.1 == id) = true
    · rw [if_pos hqe] at hfq
      by_cases hws : ws ∈ q.2
      · rw [if_pos hws] at hfq
        rw [← hfq]
        exact h q hq
      · rw [if_neg hws] at hfq
        rw [← hfq]
        simp
    · rw [if_neg hqe] at hfq
      rw [← hfq]
      exact h q hq
  · rw [if_neg hkey] at hp
    rcases List.mem_append.mp hp with h1 | h1
    · exact h p h1
    · rcases List.mem_singleton.mp h1 with h2
      rw [h2]
      simp

/-- After every broadcaster operation, no entity key maps to an empty
connection set. -/
theorem noEmpty_apply (op : BOp) (m : ConnectionManager) (h : NoEmptySubs m) :
    NoEmptySubs (BOp.apply op m) := by
  cases op with
  | connectOp ws => exact h
  | disconnectOp ws => exact noEmpty_disconnect m ws h
  | subscribeProductOp ws id => exact noEmpty_subscribe m id ws h
  | subscribeBatchOp ws id => exact noEmpty_subscribe m id ws h
  | sendProductOp id fails => exact noEmpty_foldl_disconnect _ m h
  | sendBatchOp id fails => exact noEmpty_foldl_disconnect _ m h
  | sendErrorOp id fails => exact noEmpty_foldl_disconnect _ m h
  | sendPersonalOp ws fails =>
    show NoEmptySubs (m.send_personal_message ws fails)
    unfold ConnectionManager.send_personal_message
    by_cases hf : fails ws = true
    · rw [if_pos hf]
      exact noEmpty_disconnect m ws h
    · rw [if_neg hf]
      exact h
  | broadcastOp fails => exact noEmpty_foldl_disconnect _ m h

/-- C5: if connection `ws` is the one subscriber of entity `e` whose
write fails during a publish to `e`, then afterwards `ws` is absent from
the subscriber set of every entity, a subsequent publish (to `e` or with any
failure pattern) never attempts to write to `ws` again, and the
subscriber count of `e` has decreased by exactly one; moreover every
broadcaster operation preserves the no-empty-subscriber-set invariant.
The hypotheses `KeysNodup`/`SubsNodup` hold of every state the
broadcaster builds (dict keys are unique; `subscribe` refuses
duplicates). -/
theorem C5_failed_write_pruning (m : ConnectionManager) (e : String) (ws : Conn)
    (fails : Conn → Bool)
    (hk : KeysNodup m) (hs : SubsNodup m)
    (hmem : ws ∈ m.subscribersOf e) (hws : fails ws = true)
    (honly : ∀ w ∈ m.subscribersOf e, w ≠ ws → fails w = false) :
    (∀ p ∈ (m.send_product_update e fails).1.subscriptions, ws ∉ p.2) ∧
    (∀ g : Conn → Bool,
      ws ∉ ((m.send_product_update e fails).1.send_product_update e g).2) ∧
    ((m.send_product_update e fails).1.subscribersOf e).length + 1
      = (m.subscribersOf e).length ∧
    (∀ (op : BOp) (m2 : ConnectionManager),
      NoEmptySubs m2 → NoEmptySubs (BOp.apply op m2)) := by
  have hdead : (m.subscribersOf e).filter fails = [ws] :=
    filter_fails_singleton (subscribersOf_nodup m e hs) hmem hws honly
  have hm1 : (m.send_product_update e fails).1 = m.disconnect ws := by
    show ((m.subscribersOf e).filter fails).foldl (fun st w => st.disconnect w) m = _
    rw [hdead]
    rfl
  have habs : ∀ p ∈ (m.disconnect ws).subscriptions, ws ∉ p.2 :=
    disconnect_not_in_subs m ws hs
  refine ⟨by rw [hm1]; exact habs, ?_, ?_, fun op m2 h2 => noEmpty_apply op m2 h2⟩
  · intro g hc
    have hc2 : ws ∈ (m.send_product_update e fails).1.subscribersOf e := hc
    rw [hm1] at hc2
    rcases subscribersOf_mem_entry _ e ws hc2 with ⟨p, hp, hwp⟩
    exact habs p hp hwp
  · rw [hm1]
    show (subsLookup (m.subscriptions.filterMap (dcEntry ws)) e).length + 1 = _
    rw [subsLookup_disconnect ws e m.subscriptions hk]
    exact length_removeFirst hmem

/-- C5 witness: two connections subscribed to `e`, connection 1 also
subscribed to `f`; the write to connection 1 fails during a publish to `e`. -/
theorem C5_failed_write_pruning_witness :
    (∀ p ∈ ((⟨[1, 2], [("e", [1, 2]), ("f", [1])]⟩ :
        ConnectionManager).send_product_update "e" (fun w => w == 1)).1.subscriptions,
      (1 : Conn) ∉ p.2) ∧
    (∀ g : Conn → Bool,
      (1 : Conn) ∉ (((⟨[1, 2], [("e", [1, 2]), ("f", [1])]⟩ :
        ConnectionManager).send_product_update "e"
          (fun w => w == 1)).1.send_product_update "e" g).2) ∧
    (((⟨[1, 2], [("e", [1, 2]), ("f", [1])]⟩ :
        ConnectionManager).send_product_update "e"
          (fun w => w == 1)).1.subscribersOf "e").length + 1
      = ((⟨[1, 2], [("e", [1, 2]), ("f", [1])]⟩ :
          ConnectionManager).subscribersOf "e").length ∧
    (∀ (op : BOp) (m2 : ConnectionManager),
      NoEmptySubs m2 → NoEmptySubs (BOp.apply op m2)) :=
  C5_failed_write_pruning ⟨[1, 2], [("e", [1, 2]), ("f", [1])]⟩ "e" 1 (fun w => w == 1)
    (by unfold KeysNodup; decide) (by unfold SubsNodup; decide)
    (by unfold ConnectionManager.subscribersOf subsLookup; decide) rfl
    (by unfold ConnectionManager.subscribersOf subsLookup; decide)

/-- C6 counterexample: a well-formed JSON frame with the unrecognized
type `bogus` is answered with a `{type: echo}` reply, not the
`{type: error}` reply the claim requires (the connection does stay
open). -/
theorem C6_counterexample :
    (websocket_endpoint_step ⟨[7], []⟩ 7
      (Frame.jsonMsg (some "bogus") none none) (fun _ => false)).2 = ["echo"] ∧
    ("echo" : String) ≠ "error" ∧
    (websocket_endpoint_step ⟨[7], []⟩ 7
      (Frame.jsonMsg (some "bogus") none none) (fun _ => false)).1
      = ⟨[7], []⟩ := by
  refine ⟨rfl, by decide, rfl⟩

/-- C6 (amended): a frame that fails JSON parsing is answered with a
`{type: error}` reply on the same connection; a well-formed JSON frame
whose type is none of the recognized control messages
(`subscribe_product`, `subscribe_batch`, `ping`) is answered with a
`{type: echo}` reply; in both cases, when the reply write itself
succeeds, the connection stays open. -/
theorem C6_amended (m : ConnectionManager) (ws : Conn) (f : Frame)
    (fails : Conn → Bool)
    (hopen : ws ∈ m.active_connections) (hok : fails ws = false) :
    (∀ raw, f = Frame.malformed raw →
      (websocket_endpoint_step m ws f fails).2 = ["error"]) ∧
    (∀ t pid bid, f = Frame.jsonMsg t pid bid →
      t ≠ some "subscribe_product" → t ≠ some "subscribe_batch" → t ≠ some "ping" →
      (websocket_endpoint_step m ws f fails).2 = ["echo"]) ∧
    ws ∈ (websocket_endpoint_step m ws f fails).1.active_connections := by
  have hsp : ∀ m2 : ConnectionManager, m2.send_personal_message ws fails = m2 := by
    intro m2
    unfold ConnectionManager.send_personal_message
    rw [hok]
    rfl
  have hsub : ∀ (id : String) (m2 : ConnectionManager),
      (m2.subscribe id ws).active_connections = m2.active_connections := fun _ _ => rfl
  refine ⟨?_, ?_, ?_⟩
  · intro raw hf
    subst hf
    rfl
  · intro t pid bid hf ht1 ht2 ht3
    subst hf
    show (if (t == some "subscribe_product") = true then _
          else if (t == some "subscribe_batch") = true then _
          else if (t == some "ping") = true then _
          else (m.send_personal_message ws fails, ["echo"])).2 = ["echo"]
    rw [if_neg (by simp only [beq_iff_eq]; exact ht1),
      if_neg (by simp only [beq_iff_eq]; exact ht2),
      if_neg (by simp only [beq_iff_eq]; exact ht3)]
  · cases f with
    | malformed raw =>
      show ws ∈ (m.send_personal_message ws fails).active_connections
      rw [hsp]
      exact hopen
    | jsonMsg t pid bid =>
      simp only [websocket_endpoint_step]
      split
      · split
        · rw [hsp, hsub]
          exact hopen
        · exact hopen
      · split
        · split
          · rw [hsp, hsub]
            exact hopen
          · exact hopen
        · split
          · rw [hsp]
            exact hopen
          · rw [hsp]
            exact hopen

/-- C6 witness: the amended behaviour evaluated on a connected socket
receiving the unknown JSON type `bogus` with a succeeding reply write. -/
theorem C6_amended_witness :
    (∀ raw, Frame.jsonMsg (some "bogus") none none = Frame.malformed raw →
      (websocket_endpoint_step ⟨[7], []⟩ 7
        (Frame.jsonMsg (some "bogus") none none) (fun _ => false)).2 = ["error"]) ∧
    (∀ t pid bid, Frame.jsonMsg (some "bogus") none none = Frame.jsonMsg t pid bid →
      t ≠ some "subscribe_product" → t ≠ some "subscribe_batch" → t ≠ some "ping" →
      (websocket_endpoint_step ⟨[7], []⟩ 7
        (Frame.jsonMsg (some "bogus") none none) (fun _ => false)).2 = ["echo"]) ∧
    (7 : Conn) ∈ (websocket_endpoint_step ⟨[7], []⟩ 7
      (Frame.jsonMsg (some "bogus") none none) (fun _ => false)).1.active_connections :=
  C6_amended ⟨[7], []⟩ 7 (Frame.jsonMsg (some "bogus") none none) (fun _ => false)
    (by decide) rfl

end Casa
